import Mathlib

/-!
Shallow embedding of the bdkgo wallet shim
(src/bdkwallet/bdkgo_crate/src/lib.rs) and the wallet subsystem it
exposes. Machine bytes are modelled as natural numbers below 256 where
byte values matter; Rust saturating subtraction on u32 is modelled by
truncated Nat subtraction. Fallible Rust operations become Except or
Option values; a Rust panic (expect or unwrap or assert on an Err) is a
distinguished outcome constructor. External collaborators that the shim
calls into (consensus decoding, SQLite, the BIP86 derivation capability)
are modelled as explicit function or Boolean parameters, so theorems
quantify over every possible behaviour of the collaborator.
-/

namespace BdkGo

/-- Networks, as in the Rust Network enum used by the header
(Bitcoin, Testnet, Signet, Regtest). -/
inductive Network
  | bitcoin
  | testnet
  | signet
  | regtest
deriving DecidableEq

/-- Serde unit-variant index of the network, as bincode serializes it
(a 4-byte little-endian u32 under fixint encoding). -/
def Network.toIndex : Network → Nat
  | .bitcoin => 0
  | .testnet => 1
  | .signet => 2
  | .regtest => 3

/-- Partial inverse of Network.toIndex, as bincode deserialization of the
unit-variant index. -/
def Network.ofIndex : Nat → Option Network
  | 0 => some .bitcoin
  | 1 => some .testnet
  | 2 => some .signet
  | 3 => some .regtest
  | _ => none

/-- Byte values of the DB_MAGIC constant, the ASCII bytes of the
21-character magic string in lib.rs. -/
def DB_MAGIC : List Nat :=
  [117, 116, 114, 101, 101, 120, 111, 100, 46, 98, 100, 107, 46,
   51, 52, 53, 101, 57, 52, 99, 102]

/-- Length of the entropy field of the wallet header (ENTROPY_LEN). -/
def ENTROPY_LEN : Nat := 16

/-- WalletHeader from lib.rs: a version tag (DB_MAGIC_LEN bytes), entropy
(ENTROPY_LEN bytes) and a network. Fixed-size byte arrays are modelled as
lists with their length stated as a hypothesis where it matters. -/
structure WalletHeader where
  version : List Nat
  entropy : List Nat
  network : Network
deriving DecidableEq

/-- Errors of WalletHeader::decode and Wallet::load (LoadError). -/
inductive LoadError
  | Database
  | ReadHeader
  | ParseHeader
  | HeaderVersion
  | Wallet
deriving DecidableEq

/-- Little-endian 4-byte encoding of a u32 value, as u32::to_le_bytes. -/
def u32ToLE (n : Nat) : List Nat :=
  [n % 256, n / 256 % 256, n / 256 ^ 2 % 256, n / 256 ^ 3 % 256]

/-- Little-endian read of a 4-byte list, as u32::from_le_bytes. -/
def leToU32 (l : List Nat) : Nat :=
  match l with
  | [a, b, c, d] => a + b * 256 + c * 256 ^ 2 + d * 256 ^ 3
  | _ => 0

/-- Bincode fixint serialization of a WalletHeader: the two fixed-size
byte arrays are emitted verbatim, the network as its 4-byte
little-endian unit-variant index. -/
def serializeHeader (h : WalletHeader) : List Nat :=
  h.version ++ h.entropy ++ u32ToLE h.network.toIndex

/-- Bincode fixint deserialization of a WalletHeader from a byte buffer:
21 version bytes, 16 entropy bytes, then the 4-byte network index; fails
on a short buffer or an unknown network index. -/
def deserializeHeader (b : List Nat) : Option WalletHeader :=
  if b.length < 41 then none
  else
    match Network.ofIndex (leToU32 ((b.drop 37).take 4)) with
    | none => none
    | some n => some ⟨b.take 21, (b.drop 21).take 16, n⟩

/-- WalletHeader::encode: rewrites the version field to DB_MAGIC, bincode
serializes the header, and prepends the 4-byte little-endian length of
the serialized bytes. -/
def WalletHeader.encode (h : WalletHeader) : List Nat :=
  u32ToLE (serializeHeader ⟨DB_MAGIC, h.entropy, h.network⟩).length
    ++ serializeHeader ⟨DB_MAGIC, h.entropy, h.network⟩

/-- WalletHeader::decode: reads a 4-byte little-endian length, then that
many bytes, deserializes them, and rejects a version field different
from DB_MAGIC with a HeaderVersion error. -/
def WalletHeader.decode (bytes : List Nat) : Except LoadError WalletHeader :=
  if bytes.length < 4 then .error .ReadHeader
  else if (bytes.drop 4).length < leToU32 (bytes.take 4) then .error .ReadHeader
  else
    match deserializeHeader ((bytes.drop 4).take (leToU32 (bytes.take 4))) with
    | none => .error .ParseHeader
    | some h =>
      if h.version = DB_MAGIC then .ok h else .error .HeaderVersion

/-- ChainPosition of a transaction or txout: confirmed with an anchor
(height and hash), or unconfirmed with a first-seen timestamp. -/
inductive ChainPosition
  | confirmed (anchorHeight : Nat) (anchorHash : Nat)
  | unconfirmed (firstSeen : Nat)
deriving DecidableEq

/-- Confirmation count computed by Wallet::transactions and Wallet::utxos:
0 for an unconfirmed position, otherwise (1 + tip height) minus the
anchor height with Rust saturating subtraction (truncated Nat
subtraction here). -/
def confirmations (pos : ChainPosition) (tipHeight : Nat) : Nat :=
  match pos with
  | .confirmed a _ => (1 + tipHeight) - a
  | .unconfirmed _ => 0

/-- Keychains of the wallet: recv models KeychainKind::External (receive
addresses), chg models KeychainKind::Internal (change addresses). -/
inductive Keychain
  | recv
  | chg
deriving DecidableEq

/-- Modelled from the spec: WalletHeader::descriptor builds the BIP86
descriptor from a master key derived from the network and entropy fields
of the header and nothing else; the external derivation cryptography is
out of scope and is passed in as an arbitrary pure capability bip86. -/
def WalletHeader.descriptor (bip86 : Network → List Nat → Keychain → Nat)
    (h : WalletHeader) (k : Keychain) : Nat :=
  bip86 h.network h.entropy k

/-- Modelled from the spec: Wallet::peek_address derives the script at
the given index of the external-keychain descriptor as a pure function
of (descriptor, index); derive is the external derivation capability. -/
def peekAddress (derive : Nat → Nat → Nat)
    (bip86 : Network → List Nat → Keychain → Nat)
    (h : WalletHeader) (i : Nat) : Nat :=
  derive (WalletHeader.descriptor bip86 h .recv) i

/-- Keychain derivation state of the external keychain: the next index
not yet revealed, and the set of indices already marked used. -/
structure KeychainState where
  nextUnrevealed : Nat
  used : List Nat
deriving DecidableEq

/-- Modelled from the spec: the lowest unused index of the keychain
(every index at or past nextUnrevealed is unused, so the search over
the range up to nextUnrevealed always succeeds when nextUnrevealed
itself is unused; the headD default is that boundary index). -/
def lowestUnused (s : KeychainState) : Nat :=
  (((List.range (s.nextUnrevealed + 1)).filter
    (fun i => !(s.used.contains i))).headD s.nextUnrevealed)

/-- Modelled from the spec: Wallet::last_unused_address returns the
lowest unused index and its derived address without advancing the
keychain state. -/
def lastUnusedAddress (derive : Nat → Nat) (s : KeychainState) :
    (Nat × Nat) × KeychainState :=
  ((lowestUnused s, derive (lowestUnused s)), s)

/-- Modelled from the spec: reveal_next_address returns the lowest
unused index and its derived address, marks that index used, and
advances nextUnrevealed. -/
def revealNextAddress (derive : Nat → Nat) (s : KeychainState) :
    (Nat × Nat) × KeychainState :=
  ((lowestUnused s, derive (lowestUnused s)),
   ⟨s.nextUnrevealed + 1, lowestUnused s :: s.used⟩)

/-- Error type DatabaseError of lib.rs (a single Write variant). -/
inductive DatabaseError
  | Write
deriving DecidableEq

/-- Outcome of Wallet::fresh_address: the Rust function either panics
(an unwrap on the persist result), or returns Ok with an address info
pair (index, address); the declared Err variant carries a
DatabaseError. -/
inductive FreshOutcome
  | panicked
  | err (e : DatabaseError)
  | ok (a : Nat × Nat)
deriving DecidableEq

/-- Wallet::fresh_address from lib.rs: reveals the next external
address, then persists with unwrap — a persistence failure panics — and
returns the revealed (index, address) pair. The synchronous persist is
modelled by the Boolean persistOk giving the outcome of the write. -/
def freshAddress (derive : Nat → Nat) (persistOk : Bool)
    (s : KeychainState) : FreshOutcome × KeychainState :=
  let r := revealNextAddress derive s
  if persistOk then (.ok r.1, r.2) else (.panicked, r.2)

/-- Checkpoint of the local chain: a height and a block hash. -/
structure BlockId where
  height : Nat
  hash : Nat
deriving DecidableEq

/-- Decoded block, as far as the wallet shim inspects it: its own hash,
the parent hash claimed by its header, and the ids of its
transactions. -/
structure Block where
  hash : Nat
  parent : Nat
  txids : List Nat
deriving DecidableEq

/-- In-memory wallet state guarded by the shim: the checkpoint chain of
the chain index (tip first), the transaction graph (ids of known
relevant transactions, in insertion order), and the keychain index. -/
structure WalletState where
  chain : List BlockId
  txGraph : List Nat
  keychain : KeychainState
deriving DecidableEq

/-- Tip checkpoint of a chain; a chain always holds at least the genesis
checkpoint, whose height is 0. -/
def chainTip (chain : List BlockId) : BlockId :=
  chain.headD ⟨0, 0⟩

/-- Transaction ids of a block that are relevant to the wallet and not
yet in the transaction graph: these become the staged, newly-relevant
ids reported by ApplyResult. -/
def newlyRelevant (relevant : Nat → Bool) (g : List Nat)
    (txids : List Nat) : List Nat :=
  txids.filter (fun t => relevant t && !(g.contains t))

/-- Error type ApplyBlockError of lib.rs. -/
inductive ApplyBlockError
  | DecodeBlock
  | CannotConnect
  | Database
deriving DecidableEq

/-- Modelled from the spec: apply_block_connected_to with the current
tip as connected_to — the bootstrap path taken when the tip height is 0.
The block is connected directly onto the supplied tip regardless of its
own parent-hash linkage; the new checkpoint must still sit strictly
above the tip (checkpoint heights strictly increase and genesis is
never replaced). Relevant block transactions are inserted as
confirmed. -/
def connectToTip (relevant : Nat → Bool) (s : WalletState) (height : Nat)
    (b : Block) : Except ApplyBlockError (WalletState × List Nat) :=
  if (chainTip s.chain).height < height then
    let news := newlyRelevant relevant s.txGraph b.txids
    .ok (⟨⟨height, b.hash⟩ :: s.chain, s.txGraph ++ news, s.keychain⟩, news)
  else .error .CannotConnect

/-- Modelled from the spec: the standard path of Wallet::apply_block —
the chain must hold a checkpoint at height - 1 whose hash equals the
parent hash claimed by the block; otherwise the connection fails with
CannotConnect. On success the block becomes the new tip (checkpoints at
or above its height are discarded) and relevant block transactions are
inserted as confirmed. -/
def connectLinked (relevant : Nat → Bool) (s : WalletState) (height : Nat)
    (b : Block) : Except ApplyBlockError (WalletState × List Nat) :=
  if s.chain.any (fun cp => cp.height + 1 == height && cp.hash == b.parent) then
    let news := newlyRelevant relevant s.txGraph b.txids
    .ok (⟨⟨height, b.hash⟩ :: s.chain.filter (fun cp => cp.height < height),
          s.txGraph ++ news, s.keychain⟩, news)
  else .error .CannotConnect

/-- Wallet::apply_block from lib.rs: consensus-decode the block bytes
(the external decoder is the decode parameter; a decode failure is the
DecodeBlock error), then — dispatching on whether the tip height is 0 —
connect directly to the tip or via parent-hash linkage, then persist
(outcome persistOk); a persist failure returns the Database error after
the in-memory state has already been mutated. Returns the result paired
with the in-memory state after the call. -/
def applyBlock (decode : List Nat → Option Block) (relevant : Nat → Bool)
    (persistOk : Bool) (s : WalletState) (height : Nat)
    (blockBytes : List Nat) :
    Except ApplyBlockError (List Nat) × WalletState :=
  match decode blockBytes with
  | none => (.error .DecodeBlock, s)
  | some b =>
    match (if (chainTip s.chain).height = 0 then connectToTip relevant s height b
           else connectLinked relevant s height b) with
    | .error e => (.error e, s)
    | .ok (s1, news) =>
      if persistOk then (.ok news, s1) else (.error .Database, s1)

/-- Mempool entry passed to Wallet::apply_mempool: raw transaction bytes
and the unix time it was first seen. -/
structure MempoolTx where
  tx : List Nat
  addedUnix : Nat

/-- Error type ApplyMempoolError of lib.rs (only a Database variant — no
decode variant exists). -/
inductive ApplyMempoolError
  | Database
deriving DecidableEq

/-- Outcome of Wallet::apply_mempool: a panic (the expect on transaction
decoding), an error value, or Ok with the newly-relevant ids. -/
inductive MempoolOutcome
  | panicked
  | err (e : ApplyMempoolError)
  | ok (txids : List Nat)
deriving DecidableEq

/-- Decoding loop of Wallet::apply_mempool: every entry is decoded with
expect, so the whole call panics (none here) as soon as any entry fails
to decode. -/
def decodeAllTxs (decodeTx : List Nat → Option Nat) :
    List MempoolTx → Option (List (Nat × Nat))
  | [] => some []
  | t :: ts =>
    match decodeTx t.tx with
    | none => none
    | some txid => (decodeAllTxs decodeTx ts).map (fun r => (txid, t.addedUnix) :: r)

/-- Wallet::apply_mempool from lib.rs: decode all transactions (panicking
on the first failure), insert them as unconfirmed, persist (outcome
persistOk, a failure being the only surfaced error), and return the
newly-relevant ids. -/
def applyMempool (decodeTx : List Nat → Option Nat) (relevant : Nat → Bool)
    (persistOk : Bool) (s : WalletState) (txs : List MempoolTx) :
    MempoolOutcome × WalletState :=
  match decodeAllTxs decodeTx txs with
  | none => (.panicked, s)
  | some decoded =>
    let news := newlyRelevant relevant s.txGraph (decoded.map (fun d => d.1))
    let s1 : WalletState := ⟨s.chain, s.txGraph ++ news, s.keychain⟩
    if persistOk then (.ok news, s1) else (.err .Database, s1)

/-- Error type CreateNewError of lib.rs. -/
inductive CreateNewError
  | ParseNetwork
  | ParseGenesisHash
  | Database
  | Wallet
deriving DecidableEq

/-- Effect of std::fs::remove_file on whether a file exists at the path
(the call in lib.rs discards the Result; the removal itself is modelled
as effective). -/
def removeFile (_fileAtPath : Bool) : Bool := false

/-- Wallet::create_new from lib.rs, as a control-flow model over the
outcomes of its five fallible steps (network parse, Connection::open,
the CREATE TABLE, the header INSERT, and wallet creation). The second
component tracks whether a database file exists at db_path after the
call, starting from a path with no file: Connection::open creates the
file, and every failure arm after it removes the file before returning
its error. -/
def createNew (parseOk openOk tableOk insertOk walletOk : Bool) :
    Except CreateNewError Unit × Bool :=
  if !parseOk then (.error .ParseNetwork, false)
  else
    let fileAtPath := true
    if !openOk then (.error .Database, removeFile fileAtPath)
    else if !tableOk then (.error .Database, removeFile fileAtPath)
    else if !insertOk then (.error .Database, removeFile fileAtPath)
    else if !walletOk then (.error .Wallet, removeFile fileAtPath)
    else (.ok (), fileAtPath)

/-- Decidable equality of Except values, needed to evaluate concrete
results of the fallible operations. -/
def exceptDecEq {ε α : Type} [DecidableEq ε] [DecidableEq α] :
    (a b : Except ε α) → Decidable (a = b)
  | .error e1, .error e2 =>
    if h : e1 = e2 then .isTrue (by rw [h])
    else .isFalse (by intro hh; cases hh; exact h rfl)
  | .error _, .ok _ => .isFalse (by intro hh; cases hh)
  | .ok _, .error _ => .isFalse (by intro hh; cases hh)
  | .ok a1, .ok a2 =>
    if h : a1 = a2 then .isTrue (by rw [h])
    else .isFalse (by intro hh; cases hh; exact h rfl)

instance {ε α : Type} [DecidableEq ε] [DecidableEq α] :
    DecidableEq (Except ε α) :=
  exceptDecEq

/-! Theorems. -/

theorem network_index_roundtrip (n : Network) :
    Network.ofIndex (leToU32 (u32ToLE n.toIndex)) = some n := by
  cases n <;> rfl

theorem dropAppend (l₁ l₂ : List Nat) (n : Nat) (h : l₁.length = n) :
    (l₁ ++ l₂).drop n = l₂ := by
  subst h
  simp

theorem takeAppend (l₁ l₂ : List Nat) (n : Nat) (h : l₁.length = n) :
    (l₁ ++ l₂).take n = l₁ := by
  subst h
  simp

theorem deserialize_serialize (h : WalletHeader) (hv : h.version.length = 21)
    (he : h.entropy.length = 16) :
    deserializeHeader (serializeHeader h) = some h := by
  have hd21 : (serializeHeader h).drop 21 = h.entropy ++ u32ToLE h.network.toIndex := by
    simpa [serializeHeader] using
      dropAppend h.version (h.entropy ++ u32ToLE h.network.toIndex) 21 hv
  have hd37 : (serializeHeader h).drop 37 = u32ToLE h.network.toIndex := by
    have h16 : ((serializeHeader h).drop 21).drop 16 = u32ToLE h.network.toIndex := by
      rw [hd21]
      exact dropAppend h.entropy (u32ToLE h.network.toIndex) 16 he
    simpa [List.drop_drop] using h16
  have ht21 : (serializeHeader h).take 21 = h.version := by
    simpa [serializeHeader] using
      takeAppend h.version (h.entropy ++ u32ToLE h.network.toIndex) 21 hv
  have ht16 : ((serializeHeader h).drop 21).take 16 = h.entropy := by
    rw [hd21]
    exact takeAppend h.entropy (u32ToLE h.network.toIndex) 16 he
  have hlen : (serializeHeader h).length = 41 := by
    simp [serializeHeader, u32ToLE, hv, he]
  have ht4 : ((serializeHeader h).drop 37).take 4 = u32ToLE h.network.toIndex := by
    rw [hd37]; rfl
  unfold deserializeHeader
  rw [hlen, ht4, network_index_roundtrip, ht21, ht16]
  simp

theorem headerRoundtripAux (h : WalletHeader) (he : h.entropy.length = 16) :
    WalletHeader.decode h.encode = .ok ⟨DB_MAGIC, h.entropy, h.network⟩ := by
  have hm : WalletHeader.mk DB_MAGIC h.entropy h.network = ⟨DB_MAGIC, h.entropy, h.network⟩ := rfl
  have hlenb : (serializeHeader ⟨DB_MAGIC, h.entropy, h.network⟩).length = 41 := by
    simp [serializeHeader, u32ToLE, he, DB_MAGIC]
  have hser :
      deserializeHeader (serializeHeader ⟨DB_MAGIC, h.entropy, h.network⟩)
        = some ⟨DB_MAGIC, h.entropy, h.network⟩ :=
    deserialize_serialize _ (by simp [DB_MAGIC]) (by simpa using he)
  unfold WalletHeader.encode WalletHeader.decode
  rw [hlenb]
  have htake : (u32ToLE 41 ++ serializeHeader ⟨DB_MAGIC, h.entropy, h.network⟩).take 4
      = u32ToLE 41 := List.take_left' rfl
  have hdrop : (u32ToLE 41 ++ serializeHeader ⟨DB_MAGIC, h.entropy, h.network⟩).drop 4
      = serializeHeader ⟨DB_MAGIC, h.entropy, h.network⟩ := List.drop_left' rfl
  rw [htake, hdrop]
  have htakeAll : (serializeHeader ⟨DB_MAGIC, h.entropy, h.network⟩).take
      (leToU32 (u32ToLE 41)) = serializeHeader ⟨DB_MAGIC, h.entropy, h.network⟩ := by
    apply List.take_of_length_le
    rw [hlenb]
    rfl
  have hlt : ¬ (u32ToLE 41 ++ serializeHeader ⟨DB_MAGIC, h.entropy, h.network⟩).length < 4 := by
    simp [u32ToLE]
  rw [if_neg hlt]
  have hlt2 : ¬ (serializeHeader ⟨DB_MAGIC, h.entropy, h.network⟩).length
      < leToU32 (u32ToLE 41) := by
    rw [hlenb]; decide
  rw [if_neg hlt2, htakeAll, hser]
  simp

/-- Claim C10: header serialization round-trips — for every WalletHeader
(with a well-formed 16-byte entropy field), decoding the bytes produced
by encode succeeds and yields a header with the same entropy and
network, and with the version field equal to DB_MAGIC, so a decoded
header never fails the HeaderVersion check. -/
theorem claim10_header_roundtrip (h : WalletHeader)
    (he : h.entropy.length = ENTROPY_LEN) :
    WalletHeader.decode h.encode = .ok ⟨DB_MAGIC, h.entropy, h.network⟩ :=
  headerRoundtripAux h he

/-- Witness for claim C10 at a concrete header whose version field is
not the magic: decoding its encoding succeeds with the version rewritten
to DB_MAGIC and the entropy and network preserved. -/
theorem claim10_header_roundtrip_witness :
    (WalletHeader.mk [9] (List.replicate 16 7) .signet).entropy.length = ENTROPY_LEN
    ∧ WalletHeader.decode (WalletHeader.encode ⟨[9], List.replicate 16 7, .signet⟩)
        = .ok ⟨DB_MAGIC, List.replicate 16 7, .signet⟩ :=
  ⟨by decide, claim10_header_roundtrip ⟨[9], List.replicate 16 7, .signet⟩ (by decide)⟩

/-- Claim C3: the confirmations field computed by the transactions and
utxos queries is 0 for an Unconfirmed chain position, and otherwise
equals 1 + tip height - anchor height, floored at 0 exactly when the
tip height is below the anchor height. -/
theorem claim3_confirmations_formula (tip a hsh f : Nat) :
    confirmations (.unconfirmed f) tip = 0
    ∧ confirmations (.confirmed a hsh) tip
        = (if tip < a then 0 else 1 + tip - a) := by
  refine ⟨rfl, ?_⟩
  show (1 + tip) - a = _
  split <;> omega

/-- Claim C6: last_unused_address applied twice with no intervening
state change returns the identical (index, address) pair; fresh_address
(the reveal) returns exactly the pair last_unused_address would return
at that state, and advances the next-unrevealed index by one. -/
theorem claim6_reveal_idempotence (derive : Nat → Nat) (s : KeychainState) :
    (lastUnusedAddress derive (lastUnusedAddress derive s).2).1
        = (lastUnusedAddress derive s).1
    ∧ (freshAddress derive true s).1 = .ok (lastUnusedAddress derive s).1
    ∧ (freshAddress derive true s).2.nextUnrevealed = s.nextUnrevealed + 1 :=
  ⟨rfl, rfl, rfl⟩

/-- Claim C9: whenever create_new fails — at the network parse, the
store creation, the schema write, the header write, or the wallet
initialization — no database file remains at the path afterwards. -/
theorem claim9_create_new_cleanup (p o t i w : Bool)
    (hErr : (createNew p o t i w).1 ≠ .ok ()) :
    (createNew p o t i w).2 = false := by
  revert hErr
  cases p <;> cases o <;> cases t <;> cases i <;> cases w <;> decide

/-- Witness for claim C9: a failing store creation returns an error and
leaves no file at the path. -/
theorem claim9_create_new_cleanup_witness :
    (createNew true false true true true).1 ≠ .ok ()
    ∧ (createNew true false true true true).2 = false :=
  ⟨by decide, claim9_create_new_cleanup true false true true true (by decide)⟩

/-- Claim C2: apply_block decodes the block bytes, failing with
DecodeBlock on malformed bytes; when the tip height is 0 it connects
the block directly onto the tip regardless of the parent hash claimed
by the block; otherwise it requires a checkpoint at height - 1 matching
that parent hash and fails with CannotConnect when none exists. -/
theorem claim2_apply_block_dispatch (decode : List Nat → Option Block)
    (relevant : Nat → Bool) (s : WalletState) (height : Nat)
    (bytes : List Nat) :
    (decode bytes = none →
      applyBlock decode relevant true s height bytes = (.error .DecodeBlock, s))
    ∧ (∀ b, decode bytes = some b → (chainTip s.chain).height = 0 →
        0 < height →
        applyBlock decode relevant true s height bytes
          = (.ok (newlyRelevant relevant s.txGraph b.txids),
             ⟨⟨height, b.hash⟩ :: s.chain,
              s.txGraph ++ newlyRelevant relevant s.txGraph b.txids,
              s.keychain⟩))
    ∧ (∀ b, decode bytes = some b → (chainTip s.chain).height ≠ 0 →
        s.chain.any
          (fun cp => cp.height + 1 == height && cp.hash == b.parent) = false →
        applyBlock decode relevant true s height bytes
          = (.error .CannotConnect, s)) := by
  refine ⟨?_, ?_, ?_⟩
  · intro hnone
    simp [applyBlock, hnone]
  · intro b hb h0 hpos
    simp [applyBlock, hb, h0, connectToTip, hpos]
  · intro b hb hne hany
    simp [applyBlock, hb, hne, connectLinked, hany]

/-- Witness for claim C2: the three branches at concrete inputs — a
failing decoder, a bootstrap connection onto a genesis-only chain of a
block with an unrelated parent hash, and a rejected block whose parent
hash matches no checkpoint of a non-genesis chain. -/
theorem claim2_apply_block_dispatch_witness :
    applyBlock (fun _ => none) (fun _ => true) true
      ⟨[⟨0, 0⟩], [], ⟨0, []⟩⟩ 1 [] = (.error .DecodeBlock, ⟨[⟨0, 0⟩], [], ⟨0, []⟩⟩)
    ∧ applyBlock (fun _ => some ⟨10, 99, [5]⟩) (fun _ => true) true
      ⟨[⟨0, 0⟩], [], ⟨0, []⟩⟩ 1 []
        = (.ok [5], ⟨[⟨1, 10⟩, ⟨0, 0⟩], [5], ⟨0, []⟩⟩)
    ∧ applyBlock (fun _ => some ⟨10, 99, [5]⟩) (fun _ => true) true
      ⟨[⟨5, 7⟩, ⟨0, 0⟩], [], ⟨0, []⟩⟩ 9 []
        = (.error .CannotConnect, ⟨[⟨5, 7⟩, ⟨0, 0⟩], [], ⟨0, []⟩⟩) :=
  ⟨(claim2_apply_block_dispatch (fun _ => none) (fun _ => true)
      ⟨[⟨0, 0⟩], [], ⟨0, []⟩⟩ 1 []).1 rfl,
   (claim2_apply_block_dispatch (fun _ => some ⟨10, 99, [5]⟩) (fun _ => true)
      ⟨[⟨0, 0⟩], [], ⟨0, []⟩⟩ 1 []).2.1 ⟨10, 99, [5]⟩ rfl rfl (by decide),
   (claim2_apply_block_dispatch (fun _ => some ⟨10, 99, [5]⟩) (fun _ => true)
      ⟨[⟨5, 7⟩, ⟨0, 0⟩], [], ⟨0, []⟩⟩ 9 []).2.2 ⟨10, 99, [5]⟩ rfl
      (by decide) (by decide)⟩

/-- Claim C1 counterexample: an apply_block call whose persist step
fails does return the Database error, but the in-memory wallet state
after the call differs from the pre-call state — the connected block
and its transactions remain applied in memory, refuting the claimed
roll-back to the pre-call state. -/
theorem claim1_rollback_counterexample :
    (applyBlock (fun _ => some ⟨10, 99, [5]⟩) (fun _ => true) false
      ⟨[⟨0, 0⟩], [], ⟨0, []⟩⟩ 1 []).1 = .error .Database
    ∧ (applyBlock (fun _ => some ⟨10, 99, [5]⟩) (fun _ => true) false
      ⟨[⟨0, 0⟩], [], ⟨0, []⟩⟩ 1 []).2 ≠ ⟨[⟨0, 0⟩], [], ⟨0, []⟩⟩ :=
  ⟨rfl, by decide⟩

/-- Claim C1 (amended): when the persist step of apply_block fails after
the block connected, the call returns the Database persistence error,
and the in-memory state is the mutated post-connection state — the
mutation is retained (staged for a later persist), not rolled back to
the pre-call state. -/
theorem claim1_apply_block_persist_failure (decode : List Nat → Option Block)
    (relevant : Nat → Bool) (s : WalletState) (height : Nat)
    (bytes : List Nat) (b : Block) (s1 : WalletState) (news : List Nat)
    (hb : decode bytes = some b)
    (hc : (if (chainTip s.chain).height = 0 then connectToTip relevant s height b
           else connectLinked relevant s height b) = .ok (s1, news)) :
    applyBlock decode relevant false s height bytes = (.error .Database, s1) := by
  simp [applyBlock, hb, hc]

/-- Witness for the amended claim C1: a concrete failing persist after a
bootstrap connection returns the Database error with the post-connection
state. -/
theorem claim1_apply_block_persist_failure_witness :
    applyBlock (fun _ => some ⟨10, 99, [5]⟩) (fun _ => true) false
      ⟨[⟨0, 0⟩], [], ⟨0, []⟩⟩ 1 []
      = (.error .Database, ⟨[⟨1, 10⟩, ⟨0, 0⟩], [5], ⟨0, []⟩⟩) :=
  claim1_apply_block_persist_failure (fun _ => some ⟨10, 99, [5]⟩)
    (fun _ => true) ⟨[⟨0, 0⟩], [], ⟨0, []⟩⟩ 1 [] ⟨10, 99, [5]⟩
    ⟨[⟨1, 10⟩, ⟨0, 0⟩], [5], ⟨0, []⟩⟩ [5] rfl (by decide)

/-- Claim C5 counterexample: an apply_mempool call given transaction
bytes that fail consensus decoding panics (the expect in the decoding
loop) and does not return an error value — ApplyMempoolError has only
the Database variant, so the panicked outcome differs from every
possible error return. -/
theorem claim5_error_value_counterexample :
    (applyMempool (fun _ => none) (fun _ => true) true
      ⟨[⟨0, 0⟩], [], ⟨0, []⟩⟩ [⟨[0], 0⟩]).1 = .panicked
    ∧ (applyMempool (fun _ => none) (fun _ => true) true
      ⟨[⟨0, 0⟩], [], ⟨0, []⟩⟩ [⟨[0], 0⟩]).1 ≠ .err .Database :=
  ⟨rfl, by decide⟩

theorem decodeAllTxs_none_of_mem (decodeTx : List Nat → Option Nat)
    (txs : List MempoolTx) (t : MempoolTx) (ht : t ∈ txs)
    (hd : decodeTx t.tx = none) :
    decodeAllTxs decodeTx txs = none := by
  induction txs with
  | nil => cases ht
  | cons x xs ih =>
    cases ht with
    | head => simp [decodeAllTxs, hd]
    | tail _ hmem =>
      unfold decodeAllTxs
      cases hx : decodeTx x.tx with
      | none => rfl
      | some v => simp [ih hmem]

/-- Claim C5 (amended): an apply_mempool call whose input list contains
transaction bytes that fail consensus decoding panics via the expect in
the decoding loop; the failure is not returned as an error value. -/
theorem claim5_mempool_decode_panics (decodeTx : List Nat → Option Nat)
    (relevant : Nat → Bool) (persistOk : Bool) (s : WalletState)
    (txs : List MempoolTx) (t : MempoolTx) (ht : t ∈ txs)
    (hd : decodeTx t.tx = none) :
    (applyMempool decodeTx relevant persistOk s txs).1 = .panicked := by
  simp [applyMempool, decodeAllTxs_none_of_mem decodeTx txs t ht hd]

/-- Witness for the amended claim C5 at a concrete undecodable mempool
entry. -/
theorem claim5_mempool_decode_panics_witness :
    (applyMempool (fun _ => none) (fun _ => true) true
      ⟨[⟨0, 0⟩], [], ⟨0, []⟩⟩ [⟨[3], 7⟩]).1 = .panicked :=
  claim5_mempool_decode_panics (fun _ => none) (fun _ => true) true
    ⟨[⟨0, 0⟩], [], ⟨0, []⟩⟩ [⟨[3], 7⟩] ⟨[3], 7⟩ (by simp) rfl

/-- Claim C8 counterexample: a fresh_address call whose persist write
fails panics (the unwrap on persist) and does not return the
DatabaseError result the claim requires — Write is the only
DatabaseError variant, so the panicked outcome differs from every
possible error return. -/
theorem claim8_database_error_counterexample :
    (freshAddress (fun i => i) false ⟨0, []⟩).1 = .panicked
    ∧ (freshAddress (fun i => i) false ⟨0, []⟩).1 ≠ .err .Write :=
  ⟨rfl, by decide⟩

/-- Claim C8 (amended): fresh_address persists the reveal before
returning — a successful return happens only when the persist write
succeeded, and it carries the revealed pair — but a failing persist
write causes a panic via unwrap, not a DatabaseError result. -/
theorem claim8_fresh_address_persist (derive : Nat → Nat) (persistOk : Bool)
    (s : KeychainState) :
    (persistOk = true →
      freshAddress derive persistOk s
        = (.ok (revealNextAddress derive s).1, (revealNextAddress derive s).2))
    ∧ (persistOk = false →
      (freshAddress derive persistOk s).1 = .panicked) := by
  cases persistOk <;> simp [freshAddress]

/-- Witness for the amended claim C8: a successful persist returns the
revealed pair; a failing persist panics. -/
theorem claim8_fresh_address_persist_witness :
    freshAddress (fun i => i) true ⟨0, []⟩ = (.ok (0, 0), ⟨1, [0]⟩)
    ∧ (freshAddress (fun i => i) false ⟨0, []⟩).1 = .panicked :=
  ⟨(claim8_fresh_address_persist (fun i => i) true ⟨0, []⟩).1 rfl,
   (claim8_fresh_address_persist (fun i => i) false ⟨0, []⟩).2 rfl⟩

/-- Claim C7: address derivation is deterministic — the descriptor and
every peeked script are pure functions of the entropy and network
fields of the header, so they agree between any two headers with equal
entropy and network, and between a header and the header obtained by a
fresh load (decode of encode) of its persisted bytes. -/
theorem claim7_derivation_deterministic
    (bip86 : Network → List Nat → Keychain → Nat) (derive : Nat → Nat → Nat)
    (h1 h2 hd : WalletHeader) (k : Keychain) (i : Nat)
    (hent : h1.entropy = h2.entropy) (hnet : h1.network = h2.network)
    (hlen : h1.entropy.length = ENTROPY_LEN)
    (hdec : WalletHeader.decode h1.encode = .ok hd) :
    WalletHeader.descriptor bip86 h1 k = WalletHeader.descriptor bip86 h2 k
    ∧ peekAddress derive bip86 h1 i = peekAddress derive bip86 h2 i
    ∧ WalletHeader.descriptor bip86 hd k = WalletHeader.descriptor bip86 h1 k
    ∧ peekAddress derive bip86 hd i = peekAddress derive bip86 h1 i := by
  have hhd : hd = ⟨DB_MAGIC, h1.entropy, h1.network⟩ :=
    Except.ok.inj (hdec.symm.trans (headerRoundtripAux h1 hlen))
  subst hhd
  simp [WalletHeader.descriptor, peekAddress, hent, hnet]

/-- Witness for claim C7 at a concrete header, capability pair and
freshly decoded header. -/
theorem claim7_derivation_deterministic_witness :
    WalletHeader.descriptor (fun _ _ _ => 5) ⟨[2], List.replicate 16 3, .regtest⟩ .recv
      = WalletHeader.descriptor (fun _ _ _ => 5) ⟨[4], List.replicate 16 3, .regtest⟩ .recv
    ∧ peekAddress (fun d j => d + j) (fun _ _ _ => 5)
        ⟨[2], List.replicate 16 3, .regtest⟩ 0
      = peekAddress (fun d j => d + j) (fun _ _ _ => 5)
        ⟨[4], List.replicate 16 3, .regtest⟩ 0
    ∧ WalletHeader.descriptor (fun _ _ _ => 5) ⟨DB_MAGIC, List.replicate 16 3, .regtest⟩ .recv
      = WalletHeader.descriptor (fun _ _ _ => 5) ⟨[2], List.replicate 16 3, .regtest⟩ .recv
    ∧ peekAddress (fun d j => d + j) (fun _ _ _ => 5)
        ⟨DB_MAGIC, List.replicate 16 3, .regtest⟩ 0
      = peekAddress (fun d j => d + j) (fun _ _ _ => 5)
        ⟨[2], List.replicate 16 3, .regtest⟩ 0 :=
  claim7_derivation_deterministic (fun _ _ _ => 5) (fun d j => d + j)
    ⟨[2], List.replicate 16 3, .regtest⟩ ⟨[4], List.replicate 16 3, .regtest⟩
    ⟨DB_MAGIC, List.replicate 16 3, .regtest⟩ .recv 0 rfl rfl (by decide) rfl

end BdkGo
